import Mathlib

/-
Verification development for the tip command-line TiDB client.

The definitions below are a shallow embedding of the Go sources:
  - the statement classifier (isQueryStmt / isQuery),
  - the execution dispatcher (executeSQL),
  - the result renderers (formatValue / formatCSVValue / printResults and the
    streaming ResultIOWriter sinks),
  - the REPL statement-assembly loop body (replStep) and the one-shot
    suggestion slot handling (promptRead / askStoreSuggestion / promptCycle),
  - the system command .output_format (outputFormatHandle),
  - the connection manager (connectToDatabase over the shared globals), and
  - the Lua scripting bridge's sql.query function (sqlQueryLua).

External collaborators (the MySQL driver, encoding/json, tablewriter, the
line editor, the TiDB SQL grammar) are modelled as opaque parameters or as
abstract outcome values, exactly where the Go code treats them as black
boxes.  Machine integers are modelled as Int (the affected-row counts the
client handles never approach 64-bit overflow and the code performs no
arithmetic on them).  Go float64 values are not modelled as floating point:
a float is carried as its fmt-rendered decimal text, which is the only way
the client ever inspects one.
-/

namespace Tip

/-! ## Driver values (database/sql scan results) -/

/-- A dynamically-typed column value as scanned from the driver.
Mirrors the cases switched on by formatValue / formatCSVValue in main.go:
nil, bool, int/int64, float64, string, []byte, time.Time.
The float64 payload is its fmt "%f" rendering; the time.Time payload is its
"2006-01-02 15:04:05" rendering (the code only formats these values). -/
inductive Value where
  | nullV
  | boolV (b : Bool)
  | intV (i : Int)
  | floatV (rendered : String)
  | strV (s : String)
  | bytesV (s : String)
  | timeV (formatted : String)
deriving DecidableEq, Repr

/-- RowResult from main.go: column names paired with column values. -/
structure RowResult where
  colNames : List String
  colValues : List Value
deriving DecidableEq, Repr

/-! ## Output formats (main.go) -/

/-- OutputFormat from main.go (current revision): Plain, JSON, Table, CSV. -/
inductive OutputFormat where
  | Plain
  | JSON
  | Table
  | CSV
deriving DecidableEq, Repr

/-- OutputFormat.String() from main.go. -/
def OutputFormat.toStr : OutputFormat → String
  | .Plain => "plain"
  | .JSON => "json"
  | .Table => "table"
  | .CSV => "csv"

/-- parseOutputFormat from main.go: switch on the name, default Plain. -/
def parseOutputFormat (format : String) : OutputFormat :=
  if format = "json" then .JSON
  else if format = "table" then .Table
  else if format = "csv" then .CSV
  else .Plain

/-! ## Statement classifier (isQueryStmt / isQuery) -/

/-- The syntactic statement kinds of the TiDB parser's ast.StmtNode that
matter here: every kind named in isQueryStmt's type switch, plus DDL and
account-management kinds the parser distinguishes but the switch does NOT
list (DropIndexStmt for DROP INDEX, CreateViewStmt, CreateUserStmt,
DropUserStmt, AlterUserStmt) — these fall to the switch's default case.
otherStmt stands for the remaining, genuinely row-producing default kinds
(SELECT, SHOW, EXPLAIN, ...). -/
inductive StmtKind where
  | InsertStmt | UpdateStmt | DeleteStmt
  | CreateTableStmt | AlterTableStmt | DropTableStmt | GrantStmt
  | RevokeStmt | TruncateTableStmt | RenameTableStmt | CreateIndexStmt
  | CreateDatabaseStmt | DropDatabaseStmt | FlashBackDatabaseStmt | AlterDatabaseStmt
  | BeginStmt | CommitStmt | RollbackStmt
  | UseStmt | SetStmt
  | DropIndexStmt | CreateViewStmt | CreateUserStmt | DropUserStmt | AlterUserStmt
  | SelectStmt | ShowStmt | otherStmt
deriving DecidableEq, Repr

/-- isQueryStmt from the classifier source: the explicitly listed DML, DDL,
transaction-control, USE and SET node kinds are non-query; every other kind
hits the default case and counts as a query — including the parser's DDL
and account-management kinds the switch does not name (DropIndexStmt,
CreateViewStmt, CreateUserStmt, DropUserStmt, AlterUserStmt). -/
def isQueryStmt : StmtKind → Bool
  | .InsertStmt | .UpdateStmt | .DeleteStmt => false
  | .CreateTableStmt | .AlterTableStmt | .DropTableStmt | .GrantStmt
  | .RevokeStmt | .TruncateTableStmt | .RenameTableStmt | .CreateIndexStmt
  | .CreateDatabaseStmt | .DropDatabaseStmt | .FlashBackDatabaseStmt | .AlterDatabaseStmt => false
  | .BeginStmt | .CommitStmt | .RollbackStmt => false
  | .UseStmt | .SetStmt => false
  | _ => true

/-- isQuery from the classifier source, over the outcome of the external
TiDB grammar parse (Except: a ParseError message, or the parsed statement
batch).  On parse success it returns false as soon as any statement in the
batch is non-query, i.e. the conjunction over the batch. -/
def isQuery (parsed : Except String (List StmtKind)) : Except String Bool :=
  match parsed with
  | .error e => .error e
  | .ok stmtNodes => .ok (stmtNodes.all isQueryStmt)

/-- The statement kinds the specification calls non-Query:
INSERT/UPDATE/DELETE, DDL, transaction control, USE and SET.  This list is
written from the spec's words — its DDL therefore covers ALL the modelled
DDL/account-management kinds, the ones the classifier's switch lists and
the ones it misses (DROP INDEX, CREATE VIEW, CREATE/DROP/ALTER USER). -/
def specNonQueryKinds : List StmtKind :=
  [.InsertStmt, .UpdateStmt, .DeleteStmt,
   .CreateTableStmt, .AlterTableStmt, .DropTableStmt, .GrantStmt,
   .RevokeStmt, .TruncateTableStmt, .RenameTableStmt, .CreateIndexStmt,
   .CreateDatabaseStmt, .DropDatabaseStmt, .FlashBackDatabaseStmt, .AlterDatabaseStmt,
   .BeginStmt, .CommitStmt, .RollbackStmt,
   .UseStmt, .SetStmt,
   .DropIndexStmt, .CreateViewStmt, .CreateUserStmt, .DropUserStmt, .AlterUserStmt]

/-- Row-producing, in the spec's sense: not one of the spec's non-Query
statement kinds. -/
def rowProducing (k : StmtKind) : Prop := k ∉ specNonQueryKinds

instance (k : StmtKind) : Decidable (rowProducing k) := by
  unfold rowProducing; infer_instance

/-- The statement kinds EXPLICITLY listed by isQueryStmt's switch — the
kinds the code actually routes to the exec path.  Unlike specNonQueryKinds
this list is written from the source. -/
def codeNonQueryKinds : List StmtKind :=
  [.InsertStmt, .UpdateStmt, .DeleteStmt,
   .CreateTableStmt, .AlterTableStmt, .DropTableStmt, .GrantStmt,
   .RevokeStmt, .TruncateTableStmt, .RenameTableStmt, .CreateIndexStmt,
   .CreateDatabaseStmt, .DropDatabaseStmt, .FlashBackDatabaseStmt, .AlterDatabaseStmt,
   .BeginStmt, .CommitStmt, .RollbackStmt,
   .UseStmt, .SetStmt]

/-! ## executeSQL (main.go) -/

/-- The database handle as executeSQL sees it: an opaque query transport
(driver-level Query returning columns plus raw records) and an exec
transport (driver-level Exec returning the affected-row count). -/
structure DB where
  queryFn : String → Except String (List String × List (List Value))
  execFn : String → Except String Int

/-- A call made against the database handle; used to record which execution
path executeSQL took. -/
inductive DBCall where
  | queryCall (q : String)
  | execCall (q : String)
deriving DecidableEq, Repr

/-- rows.Scan into a destination slice of length n (one pointer per column):
database/sql errors out when the record arity does not match. -/
def scanRecord (n : Nat) (rec : List Value) : Except String (List Value) :=
  if rec.length = n then .ok rec else .error "sql: scan destination count mismatch"

/-- The rows.Next/rows.Scan fetch loop of executeSQL: scan every record,
stopping with the error of the first record that fails to scan. -/
def scanAll (n : Nat) : List (List Value) → Except String (List (List Value))
  | [] => .ok []
  | rec :: rest =>
    match scanRecord n rec with
    | .error e => .error e
    | .ok r =>
      match scanAll n rest with
      | .error e => .error e
      | .ok rs => .ok (r :: rs)

/-- The result quintuple of executeSQL (minus the error): isQ, output,
hasRows, affectedRows. -/
structure ExecResult where
  isQ : Bool
  output : List RowResult
  hasRows : Bool
  affectedRows : Int
deriving DecidableEq, Repr

/-- executeSQL from main.go.  parsed is the external grammar's outcome on
the query text; writerPresent tells whether a streaming ResultIOWriter was
supplied (in which case rows are streamed out instead of accumulated into
output).  Alongside the Go function's return value we record the list of
calls made on the database handle, so that the executed path is visible. -/
def executeSQL (db : DB) (writerPresent : Bool)
    (parsed : Except String (List StmtKind)) (query : String) :
    Except String ExecResult × List DBCall :=
  match isQuery parsed with
  | .error e => (.error ("failed to parse SQL: " ++ e), [])
  | .ok isQ =>
    if isQ then
      match db.queryFn query with
      | .error e => (.error ("failed to execute SQL: " ++ e), [.queryCall query])
      | .ok (cols, recs) =>
        match scanAll cols.length recs with
        | .error e => (.error ("failed to read data: " ++ e), [.queryCall query])
        | .ok rows =>
          let out : List RowResult := rows.map (fun r => { colNames := cols, colValues := r })
          (.ok { isQ := true,
                 output := if writerPresent then [] else out,
                 hasRows := !recs.isEmpty,
                 affectedRows := 0 },
           [.queryCall query])
    else
      match db.execFn query with
      | .error e => (.error ("failed to execute SQL: " ++ e), [.execCall query])
      | .ok n =>
        (.ok { isQ := false, output := [], hasRows := false, affectedRows := n },
         [.execCall query])

/-! ## Value formatting (main.go) -/

/-- formatValue from main.go. -/
def formatValue : Value → String
  | .nullV => "NULL"
  | .boolV b => if b then "true" else "false"
  | .intV i => toString i
  | .floatV rendered => rendered
  | .strV s => s
  | .bytesV s => s
  | .timeV formatted => formatted

/-- strings.ReplaceAll(v, a single double quote, two double quotes), as
called by formatCSVValue: every double-quote character is doubled. -/
def csvEscape : List Char → List Char
  | [] => []
  | c :: rest => if c = '"' then '"' :: '"' :: csvEscape rest else c :: csvEscape rest

/-- formatCSVValue from main.go: strings, byte sequences and timestamps are
wrapped in double quotes with internal double quotes doubled; nil becomes
the empty field; booleans, integers and floats are unquoted. -/
def formatCSVValue : Value → String
  | .nullV => ""
  | .boolV b => if b then "true" else "false"
  | .intV i => toString i
  | .floatV rendered => rendered
  | .strV s => "\"" ++ String.mk (csvEscape s.data) ++ "\""
  | .bytesV s => "\"" ++ String.mk (csvEscape s.data) ++ "\""
  | .timeV formatted => "\"" ++ String.mk (csvEscape formatted.data) ++ "\""

/-- The decoding step named by the round-trip property: replace each
doubled double-quote by a single one, scanning left to right (the inverse
direction of strings.ReplaceAll). -/
def csvUnescape : List Char → List Char
  | [] => []
  | [c] => [c]
  | c1 :: c2 :: rest =>
    if c1 = '"' ∧ c2 = '"' then '"' :: csvUnescape rest
    else c1 :: csvUnescape (c2 :: rest)

/-- The decoding step named by the round-trip property: strip one double
quote from each end of the rendered field. -/
def stripOuterQuotes (l : List Char) : Option (List Char) :=
  if 2 ≤ l.length ∧ l.head? = some '"' ∧ l.getLast? = some '"' then
    some ((l.drop 1).dropLast)
  else
    none

/-- Full CSV field decoder used by the round-trip claim: unquote, then
undouble the internal quotes. -/
def csvDecode (s : String) : Option String :=
  (stripOuterQuotes s.data).map (fun l => String.mk (csvUnescape l))

/-! ## printResults (main.go) -/

/-- The JSON status object printed for a zero-row non-query result
(verbatim from printResults). -/
def jsonStatusObj (affectedRows : Int) : String :=
  "\x7b\"status\": \"OK\", \"affected_rows\": " ++ toString affectedRows ++ "\x7d"

/-- One Plain-format output line for a row: "col: value " per column. -/
def plainRowLine (row : RowResult) : String :=
  String.join ((row.colNames.zip row.colValues).map
    (fun cv => cv.1 ++ ": " ++ formatValue cv.2 ++ " ")) ++ "\n"

/-- One CSV-format output line for a row (the in-memory CSV renderer joins
the formatted fields with commas). -/
def csvRowLine (cols : List String) (row : RowResult) : String :=
  String.intercalate "," ((cols.zip row.colValues).map (fun cv => formatCSVValue cv.2)) ++ "\n"

/-- printResults from main.go, as the text written to standard output.
The execution-detail footer goes to standard error and is therefore not
part of this value.  The two external renderers the function delegates to
for non-empty results are parameters: jsonMarshal is encoding/json's
serialization of the row slice, tableRender is tablewriter's box drawing.
Neither is invoked for a zero-row result. -/
def printResults (jsonMarshal : List RowResult → String)
    (tableRender : List RowResult → String)
    (isQ : Bool) (output : List RowResult) (outputFormat : OutputFormat)
    (affectedRows : Int) : String :=
  match outputFormat with
  | .JSON =>
    if output.isEmpty then
      if !isQ then jsonStatusObj affectedRows ++ "\n" else "[]\n"
    else
      jsonMarshal output ++ "\n"
  | .Plain =>
    if output.isEmpty then
      if !isQ then "OK, affected_rows: " ++ toString affectedRows ++ "\n"
      else "(empty result)\n"
    else
      String.join (output.map plainRowLine)
  | .Table =>
    if output.isEmpty then
      if !isQ then "OK, affected_rows: " ++ toString affectedRows ++ "\n"
      else "(empty result)\n"
    else
      tableRender output
  | .CSV =>
    if output.isEmpty then
      if !isQ then "status,affected_rows\nOK," ++ toString affectedRows ++ "\n"
      else "(empty result)\n"
    else
      match output.head? with
      | none => ""
      | some first =>
        String.intercalate "," first.colNames ++ "\n"
          ++ String.join (output.map (csvRowLine first.colNames))

/-! ## Streaming ResultIOWriter sinks -/

/-- The state of JSONResultIOWriter: the buffered bytes and the first flag
(the opening bracket is emitted lazily on the first row). -/
structure JSONWriterState where
  buf : String
  first : Bool
deriving DecidableEq, Repr

/-- NewJSONResultIOWriter. -/
def jsonWriterNew : JSONWriterState := { buf := "", first := true }

/-- JSONResultIOWriter.Write: per row, emit the opening bracket or a comma,
then the row's JSON (marshalRow stands for encoding/json on one row). -/
def jsonWriterWrite (marshalRow : RowResult → String)
    (st : JSONWriterState) (rows : List RowResult) : JSONWriterState :=
  rows.foldl
    (fun s row =>
      let s1 : JSONWriterState :=
        if s.first then { buf := s.buf ++ "[", first := false }
        else { buf := s.buf ++ ",", first := s.first }
      { s1 with buf := s1.buf ++ marshalRow row })
    st

/-- JSONResultIOWriter.Flush: close the array only if something was
written, then flush the buffer; the result is the file's final content. -/
def jsonWriterFlush (st : JSONWriterState) : String :=
  if !st.first then st.buf ++ "]" else st.buf

/-- The state of PlainResultIOWriter: the buffered bytes. -/
structure PlainWriterState where
  buf : String
deriving DecidableEq, Repr

/-- NewPlainResultIOWriter. -/
def plainWriterNew : PlainWriterState := { buf := "" }

/-- PlainResultIOWriter.Write. -/
def plainWriterWrite (st : PlainWriterState) (rows : List RowResult) : PlainWriterState :=
  { buf := st.buf ++ String.join (rows.map plainRowLine) }

/-- PlainResultIOWriter.Flush: the file's final content. -/
def plainWriterFlush (st : PlainWriterState) : String := st.buf

/-- The state of CSVResultIOWriter.  encodeRecord stands for the external
encoding/csv writer's rendering of one record. -/
structure CSVWriterState where
  buf : String
deriving DecidableEq, Repr

/-- NewCSVResultIOWriter. -/
def csvWriterNew : CSVWriterState := { buf := "" }

/-- CSVResultIOWriter.Write: each row's values are formatted with
formatCSVValue and handed to the external encoding/csv writer. -/
def csvWriterWrite (encodeRecord : List String → String)
    (st : CSVWriterState) (rows : List RowResult) : CSVWriterState :=
  { buf := st.buf ++ String.join (rows.map
      (fun row => encodeRecord (row.colValues.map formatCSVValue))) }

/-- CSVResultIOWriter.Flush: the file's final content. -/
def csvWriterFlush (st : CSVWriterState) : String := st.buf

/-! ## REPL loop body (main.go repl) -/

/-- strings.TrimSpace: drop leading and trailing whitespace characters. -/
def trimChars (l : List Char) : List Char :=
  ((l.dropWhile Char.isWhitespace).reverse.dropWhile Char.isWhitespace).reverse

/-- strings.TrimSpace on a string. -/
def trimStr (s : String) : String := String.mk (trimChars s.data)

/-- strings.HasPrefix(trimmedInput, the dot): the system-command check. -/
def startsWithDot (s : String) : Bool := s.data.head? = some '.'

/-- The terminator check of the REPL: the trimmed line's last character. -/
def lastCharIs (s : String) (c : Char) : Bool := s.data.getLast? = some c

/-- The observable outcome of one REPL loop iteration (besides the new
statement buffer).  commandDispatched, notConnectedError, pipeProtocolError,
execFailed and executed all continue the loop; accumulated means the line
was appended to the buffer awaiting its terminator. -/
inductive ReplAction where
  | commandDispatched
  | notConnectedError
  | pipeProtocolError
  | execFailed (e : String)
  | executed (r : ExecResult)
  | accumulated
deriving DecidableEq, Repr

/-- The body of the repl loop in main.go, from the prompt's return to the
bottom of the for loop, as a function of the statement buffer and the line
just read.  isTerm is isTerminal(); dbConnected is db ≠ nil; exec is
executeSQL on the given buffer text (its outcome abstracts the driver).
Returns the new statement buffer and what the iteration did. -/
def replStep (isTerm dbConnected : Bool)
    (exec : String → Except String ExecResult)
    (queryBuilder input : String) : String × ReplAction :=
  let trimmedInput := trimStr input
  if startsWithDot trimmedInput then
    (queryBuilder, .commandDispatched)
  else if !dbConnected then
    (queryBuilder, .notConnectedError)
  else
    let qb := queryBuilder ++ input ++ "\n"
    if !isTerm && (trimmedInput.data.isEmpty || !(lastCharIs trimmedInput ';')) then
      ("", .pipeProtocolError)
    else if !trimmedInput.data.isEmpty && lastCharIs trimmedInput ';' then
      match exec (trimStr qb) with
      | .error e => ("", .execFailed e)
      | .ok r => ("", .executed r)
    else
      (qb, .accumulated)

/-! ## One-shot suggestion slot (repl and AskCmd.Handle) -/

/-- The process-global replSuggestion slot. -/
structure ReplGlobals where
  replSuggestion : String
deriving DecidableEq, Repr

/-- The prompt read at the top of the repl loop: when the slot is nonempty
the prompt is pre-filled with it (PromptWithSuggestion), otherwise a plain
prompt is shown; in both cases the slot is reset to empty right after the
input is obtained.  userInput is whatever line the user finally submitted
(the accepted, edited or overwritten text). -/
def promptRead (_g : ReplGlobals) (userInput : String) : String × ReplGlobals :=
  (userInput, { replSuggestion := "" })

/-- The tail of AskCmd.Handle: when fenced SQL statements were extracted
from the answer, the selection chosen in the promptui menu is stored in the
suggestion slot. -/
def askStoreSuggestion (g : ReplGlobals) (sqlStatements : List String)
    (selected : String) : ReplGlobals :=
  if sqlStatements.isEmpty then g else { replSuggestion := selected }

/-- One prompt cycle of the repl as far as the suggestion slot is
concerned: read the input (consuming and clearing any pending suggestion),
then, if the line is a dot-command, dispatch it.  askOutcome is the outcome
of an AskCmd dispatch (the extracted SQL statements and the selection);
none when the dispatched command was not .ask or the line was not a
command. -/
def promptCycle (g : ReplGlobals) (userInput : String)
    (askOutcome : Option (List String × String)) : ReplGlobals :=
  let read := promptRead g userInput
  let g1 := read.2
  if startsWithDot (trimStr read.1) then
    match askOutcome with
    | some (stmts, sel) => askStoreSuggestion g1 stmts sel
    | none => g1
  else g1

/-! ## .output_format command (cmds.go OutputFormatCmd.Handle) -/

/-- OutputFormatCmd.Handle from cmds.go: the new selector value paired with
the command's outcome (the text written to the sink, or the returned
error). -/
def outputFormatHandle (args : List String) (current : OutputFormat) :
    OutputFormat × Except String String :=
  if args.isEmpty then
    let options := ["json", "table", "plain", "csv"]
    let formattedOptions := options.map
      (fun opt => if opt = current.toStr then "[" ++ opt ++ "]" else opt)
    (current, .ok (String.intercalate " " formattedOptions ++ "\n"))
  else if args.length ≠ 1 then
    (current, .error "usage: .output_format <format>")
  else
    match args.head? with
    | none => (current, .error "usage: .output_format <format>")
    | some arg =>
      let format := parseOutputFormat arg
      if format = .Plain ∧ arg ≠ "plain" then
        (current, .error ("invalid format: " ++ arg))
      else
        (format, .ok ("Output format set to: " ++ format.toStr ++ "\n"))

/-! ## Connection manager (connectToDatabase over the shared globals) -/

/-- ConnInfo. -/
structure ConnInfo where
  host : String
  port : String
  user : String
  password : String
  database : String
deriving DecidableEq, Repr

/-- The shared globals guarded by globalDBLock: the current connection
handle (globalDB, absent when nil) and the last used database name.
Handles are opaque; a Nat identifies one. -/
structure GlobalConnState where
  globalDB : Option Nat
  lastUsedDB : String
deriving DecidableEq, Repr

/-- SetDB. -/
def SetDB (st : GlobalConnState) (db : Option Nat) : GlobalConnState :=
  { st with globalDB := db }

/-- GetLastUsedDB. -/
def GetLastUsedDB (st : GlobalConnState) : String := st.lastUsedDB

/-- The network's behaviour during one connectToDatabase call:
the outcome of connectWithRetry with TLS, the outcome of the retry without
TLS, and whether the post-connect liveness ping of a given handle
succeeds. -/
structure ConnEnv where
  tlsAttempt : Except String Nat
  plainAttempt : Except String Nat
  pingOK : Nat → Bool

/-- connectToDatabase from the connection manager source: substitute the
last used database when none was given, try TLS then fall back to no TLS,
apply the pool limits, ping, and only on full success swap the shared
handle via SetDB.  Returns the new globals and the error outcome. -/
def connectToDatabase (env : ConnEnv) (info : ConnInfo)
    (st : GlobalConnState) : GlobalConnState × Except String Unit :=
  let _database :=
    if info.database = "" ∧ GetLastUsedDB st ≠ "" then GetLastUsedDB st
    else info.database
  match env.tlsAttempt with
  | .error _ =>
    match env.plainAttempt with
    | .error e2 => (st, .error ("failed to connect to TiDB: " ++ e2))
    | .ok db =>
      if env.pingOK db then (SetDB st (some db), .ok ())
      else (st, .error "failed to ping TiDB")
  | .ok db =>
    if env.pingOK db then (SetDB st (some db), .ok ())
    else (st, .error "failed to ping TiDB")

/-! ## Lua scripting bridge: sql.query (lua_utils.go) -/

/-- A Lua value as produced by the bridge's driver-to-Lua conversion. -/
inductive LuaValue where
  | LNil
  | LBool (b : Bool)
  | LNumberInt (i : Int)
  | LNumberFloat (rendered : String)
  | LString (s : String)
deriving DecidableEq, Repr

/-- The value conversion switch inside the sql.query row loop:
bytes and timestamps become Lua strings, nil becomes Lua nil, int64 and
float64 become Lua numbers, bool stays bool, anything else its textual
form (the closed Value type has no further case). -/
def luaConvert : Value → LuaValue
  | .bytesV s => .LString s
  | .nullV => .LNil
  | .intV i => .LNumberInt i
  | .floatV rendered => .LNumberFloat rendered
  | .boolV b => .LBool b
  | .strV s => .LString s
  | .timeV formatted => .LString formatted

/-- The Lua result table built by sql.query.  Fields that are only set on
the success path are Options (a failed call leaves them unset, i.e. Lua
nil). -/
structure SQLQueryResult where
  ok : Bool
  err : String
  columns : Option (List String)
  data : Option (List (List LuaValue))
  rowCount : Option Int
deriving DecidableEq, Repr

/-- The sql.query row loop: scan each record (arity-checked by
database/sql) and convert its values; the first scan failure aborts the
loop with that error. -/
def scanConvertAll (n : Nat) : List (List Value) → Except String (List (List LuaValue))
  | [] => .ok []
  | rec :: rest =>
    match scanRecord n rec with
    | .error e => .error e
    | .ok r =>
      match scanConvertAll n rest with
      | .error e => .error e
      | .ok rs => .ok (r.map luaConvert :: rs)

/-- A failed sql.query result: ok=false with the given message, the
success-only fields unset. -/
def sqlQueryFailure (e : String) : SQLQueryResult :=
  { ok := false, err := e, columns := none, data := none, rowCount := none }

/-- The sql.query function registered into the Lua state
(lua_utils.go registerSQLFunctions).  conn is GetDB()'s value.  The outer
Except is the Lua-level control flow: an .error would be a raise out of the
function into the interpreter, which the Go code never performs — every
path pushes a result table and returns normally. -/
def sqlQueryLua (conn : Option DB) (query : String) :
    Except String SQLQueryResult :=
  match conn with
  | none =>
    .ok (sqlQueryFailure
      "database connection is not available, please connect first using .connect command")
  | some db =>
    match db.queryFn query with
    | .error e => .ok (sqlQueryFailure e)
    | .ok (columns, recs) =>
      match scanConvertAll columns.length recs with
      | .error e => .ok (sqlQueryFailure e)
      | .ok rows =>
        .ok { ok := true, err := "",
              columns := some columns,
              data := some rows,
              rowCount := some (rows.length : Int) }

/-! ## Helper lemmas -/

/-- The code's syntactic classifier marks a kind non-query exactly when it
appears in its switch's explicit list. -/
theorem isQueryStmt_iff_not_listed (k : StmtKind) :
    isQueryStmt k = true ↔ k ∉ codeNonQueryKinds := by
  cases k <;> decide

/-- Batch-level reading of the classifier: true exactly when no statement
in the batch is one of the switch's explicitly listed kinds. -/
theorem all_isQueryStmt_iff (stmts : List StmtKind) :
    stmts.all isQueryStmt = true ↔ ∀ s ∈ stmts, s ∉ codeNonQueryKinds := by
  rw [List.all_eq_true]
  constructor
  · intro h s hs
    exact (isQueryStmt_iff_not_listed s).mp (h s hs)
  · intro h s hs
    exact (isQueryStmt_iff_not_listed s).mpr (h s hs)

/-- Escaping then unescaping double quotes is the identity. -/
theorem csvUnescape_csvEscape : ∀ l : List Char, csvUnescape (csvEscape l) = l := by
  intro l
  induction l with
  | nil => rfl
  | cons c rest ih =>
    by_cases hc : c = '"'
    · subst hc
      simp [csvEscape, csvUnescape, ih]
    · rw [csvEscape, if_neg hc]
      cases he : csvEscape rest with
      | nil =>
        have hrest : rest = [] := by
          cases rest with
          | nil => rfl
          | cons d ds =>
            rw [csvEscape] at he
            split at he <;> simp at he
        subst hrest
        rfl
      | cons d ds =>
        rw [he] at ih
        have hcond : ¬(c = '"' ∧ d = '"') := fun h => hc h.1
        rw [csvUnescape, if_neg hcond, ih]

/-- csvEscape only returns the empty list on the empty list. -/
theorem csvEscape_data_shape (s : String) :
    (formatCSVValue (Value.strV s)).data = '"' :: (csvEscape s.data ++ ['"']) := by
  show ("\"" ++ String.mk (csvEscape s.data) ++ "\"").data = _
  rw [String.data_append, String.data_append]
  rfl

/-- The JSON zero-row status object is never the empty array rendering. -/
theorem jsonStatusObj_ne_empty_array (n : Int) : jsonStatusObj n ≠ "[]" := by
  intro h
  have hl := congrArg String.length h
  rw [jsonStatusObj, String.length_append, String.length_append] at hl
  have h1 : 3 ≤ ("\x7b\"status\": \"OK\", \"affected_rows\": " : String).length := by decide
  have h2 : ("[]" : String).length = 2 := by decide
  have h3 : ("\x7d" : String).length = 1 := by decide
  omega

/-- Every row the sql.query loop accepted has exactly the scanned arity. -/
theorem scanConvertAll_lengths (n : Nat) :
    ∀ recs rows, scanConvertAll n recs = Except.ok rows →
      ∀ row ∈ rows, row.length = n := by
  intro recs
  induction recs with
  | nil =>
    intro rows h row hrow
    rw [scanConvertAll] at h
    cases h
    simp at hrow
  | cons rec rest ih =>
    intro rows h row hrow
    rw [scanConvertAll] at h
    cases hs : scanRecord n rec with
    | error e => rw [hs] at h; cases h
    | ok r =>
      rw [hs] at h
      cases hrest : scanConvertAll n rest with
      | error e => rw [hrest] at h; cases h
      | ok rs =>
        rw [hrest] at h
        cases h
        have hlen : r.length = n := by
          rw [scanRecord] at hs
          split at hs
          · cases hs; assumption
          · cases hs
        rcases List.mem_cons.mp hrow with hhead | htail
        · subst hhead
          rw [List.length_map, hlen]
        · exact ih rs hrest row htail

/-! ## Claim theorems -/

/-- A concrete database handle for witnesses: queries return no rows, exec
reports three affected rows. -/
def dbW : DB :=
  { queryFn := fun _ => Except.ok ([], []),
    execFn := fun _ => Except.ok 3 }

/-- Claim C1, counterexample: the batch holding the single DDL statement
DROP INDEX i ON t — which the grammar parses to ast.DropIndexStmt, a kind
absent from isQueryStmt's switch — is non-row-producing in the spec's
sense, yet the classifier returns true for it and executeSQL takes the
row-fetch path (a query call, not an exec call).  So a batch containing a
DDL statement is NOT always classified non-Query. -/
theorem c1_counterexample :
    ¬ rowProducing StmtKind.DropIndexStmt
    ∧ isQuery (Except.ok [StmtKind.DropIndexStmt]) = Except.ok true
    ∧ (executeSQL dbW false (Except.ok [StmtKind.DropIndexStmt]) "DROP INDEX i ON t").2
        = [DBCall.queryCall "DROP INDEX i ON t"]
    ∧ [DBCall.queryCall "DROP INDEX i ON t"] ≠ [DBCall.execCall "DROP INDEX i ON t"] := by
  refine ⟨by decide, rfl, rfl, by decide⟩

/-- Claim C1 as amended: the classifier isQuery returns true iff no parsed
statement of the batch is one of the kinds explicitly listed in its switch
(INSERT/UPDATE/DELETE; CREATE/ALTER/DROP TABLE, GRANT, REVOKE, TRUNCATE,
RENAME TABLE, CREATE INDEX, CREATE/DROP/FLASHBACK/ALTER DATABASE;
BEGIN/COMMIT/ROLLBACK; USE; SET); when any statement is a listed kind the
whole batch is classified non-Query and executeSQL makes only an exec call
— never a row fetch — with hasRows = false on success.  DDL kinds outside
the list (DROP INDEX, CREATE VIEW, CREATE/DROP/ALTER USER) fall to the
default case and are treated as row-producing. -/
theorem c1_exec_path_on_listed_kinds
    (stmts : List StmtKind) (db : DB) (writerPresent : Bool) (query : String) :
    (isQuery (Except.ok stmts) = Except.ok true ↔ ∀ s ∈ stmts, s ∉ codeNonQueryKinds)
    ∧ ((∃ s ∈ stmts, s ∈ codeNonQueryKinds) →
        isQuery (Except.ok stmts) = Except.ok false
        ∧ (executeSQL db writerPresent (Except.ok stmts) query).2 = [DBCall.execCall query]
        ∧ ∀ r, (executeSQL db writerPresent (Except.ok stmts) query).1 = Except.ok r →
            r.hasRows = false ∧ r.isQ = false) := by
  constructor
  · rw [isQuery]
    constructor
    · intro h
      exact (all_isQueryStmt_iff stmts).mp (Except.ok.inj h)
    · intro h
      rw [(all_isQueryStmt_iff stmts).mpr h]
  · intro hex
    have hall : stmts.all isQueryStmt = false := by
      rcases hex with ⟨s, hs, hmem⟩
      cases hb : stmts.all isQueryStmt with
      | false => rfl
      | true => exact absurd hmem ((all_isQueryStmt_iff stmts).mp hb s hs)
    refine ⟨by rw [isQuery, hall], ?_, ?_⟩
    · rw [executeSQL, isQuery, hall]
      cases hdb : db.execFn query <;> simp
    · intro r hr
      rw [executeSQL, isQuery, hall] at hr
      simp only [Bool.false_eq_true, if_false] at hr
      cases hdb : db.execFn query with
      | error e => rw [hdb] at hr; simp at hr
      | ok n =>
        rw [hdb] at hr
        simp only [Except.ok.injEq] at hr
        rw [← hr]
        exact ⟨rfl, rfl⟩

/-- Witness for amended C1 at the batch [SET]: classified non-Query, only
an exec call is made, and the successful outcome has hasRows = false. -/
theorem c1_witness :
    isQuery (Except.ok [StmtKind.SetStmt]) = Except.ok false
    ∧ (executeSQL dbW false (Except.ok [StmtKind.SetStmt]) "SET @x = 1").2
        = [DBCall.execCall "SET @x = 1"]
    ∧ ({ isQ := false, output := [], hasRows := false, affectedRows := 3 } : ExecResult).hasRows
        = false :=
  have h := (c1_exec_path_on_listed_kinds [StmtKind.SetStmt] dbW false "SET @x = 1").2
    (by decide)
  ⟨h.1, h.2.1, (h.2.2 { isQ := false, output := [], hasRows := false, affectedRows := 3 } rfl).1⟩

/-- Claim C4: decoding the CSV-rendered form of any string s — stripping
the outer double quotes and replacing each doubled double-quote by a single
one — recovers s byte-for-byte. -/
theorem c4_csv_round_trip (s : String) :
    csvDecode (formatCSVValue (Value.strV s)) = some s := by
  rw [csvDecode, csvEscape_data_shape]
  have hstrip :
      stripOuterQuotes ('"' :: (csvEscape s.data ++ ['"']))
        = some (csvEscape s.data) := by
    rw [stripOuterQuotes, if_pos]
    · simp [List.dropLast_concat]
    · refine ⟨?_, rfl, ?_⟩
      · simp
      · rw [show ('"' :: (csvEscape s.data ++ ['"'])) = ('"' :: csvEscape s.data) ++ ['"'] by simp,
          List.getLast?_concat]
  rw [hstrip]
  show some (String.mk (csvUnescape (csvEscape s.data))) = some s
  rw [csvUnescape_csvEscape]

/-- Claim C5: a script's sql.query call with no active connection returns
normally (never raises into the interpreter) with a result table whose ok
field is false and whose error field is a non-empty string. -/
theorem c5_query_without_connection (query : String) :
    ∃ res, sqlQueryLua none query = Except.ok res
      ∧ res.ok = false ∧ res.err ≠ "" := by
  refine ⟨sqlQueryFailure
    "database connection is not available, please connect first using .connect command",
    rfl, rfl, ?_⟩
  decide

/-- Claim C2, counterexample: the streaming JSON file-output sink, after
its mandatory Flush with zero rows written, produces the empty string —
neither the documented empty representation for a Query summary nor the
status object for a non-Query summary.  The streaming sinks are never told
the summary at all, so the claim fails for them as stated. -/
theorem c2_counterexample :
    jsonWriterFlush jsonWriterNew = ""
    ∧ jsonWriterFlush jsonWriterNew ≠ "[]"
    ∧ jsonWriterFlush jsonWriterNew ≠ jsonStatusObj 0 := by
  refine ⟨rfl, by decide, by decide⟩

/-- Claim C2 as amended: for printResults (the renderer used whenever no
output file is given), a zero-row result with a non-Query summary produces
exactly the documented status output for each format (JSON status object;
the OK, affected_rows line for Plain and Table; the two-line CSV status),
and a zero-row result with a Query summary produces the documented empty
representation, which for JSON is distinct from the non-Query case; the
streaming file-output sinks receive no summary and emit nothing at Flush
after zero rows. -/
theorem c2_zero_row_rendering (jsonMarshal tableRender : List RowResult → String)
    (n : Int) :
    printResults jsonMarshal tableRender false [] .JSON n = jsonStatusObj n ++ "\n"
    ∧ printResults jsonMarshal tableRender true [] .JSON n = "[]\n"
    ∧ printResults jsonMarshal tableRender false [] .Plain n
        = "OK, affected_rows: " ++ toString n ++ "\n"
    ∧ printResults jsonMarshal tableRender true [] .Plain n = "(empty result)\n"
    ∧ printResults jsonMarshal tableRender false [] .Table n
        = "OK, affected_rows: " ++ toString n ++ "\n"
    ∧ printResults jsonMarshal tableRender true [] .Table n = "(empty result)\n"
    ∧ printResults jsonMarshal tableRender false [] .CSV n
        = "status,affected_rows\nOK," ++ toString n ++ "\n"
    ∧ printResults jsonMarshal tableRender true [] .CSV n = "(empty result)\n"
    ∧ jsonStatusObj n ≠ "[]"
    ∧ jsonWriterFlush jsonWriterNew = ""
    ∧ plainWriterFlush plainWriterNew = ""
    ∧ csvWriterFlush csvWriterNew = "" :=
  ⟨rfl, rfl, rfl, rfl, rfl, rfl, rfl, rfl, jsonStatusObj_ne_empty_array n, rfl, rfl, rfl⟩

/-- Claim C3: in interactive mode, after any dispatch attempt of the
accumulated statement buffer — successful execution or a failure from
classification or execution (both surface as executeSQL's error) — the
statement buffer is reset to the empty string, i.e. the REPL is back in
the AwaitingStatement state before the next line is read. -/
theorem c3_buffer_reset_after_dispatch
    (isTerm dbConnected : Bool) (exec : String → Except String ExecResult)
    (queryBuilder input : String)
    (hcmd : startsWithDot (trimStr input) = false)
    (hconn : dbConnected = true)
    (hterm : isTerm = true)
    (hsemi : lastCharIs (trimStr input) ';' = true) :
    (replStep isTerm dbConnected exec queryBuilder input).1 = ""
    ∧ ((∃ e, (replStep isTerm dbConnected exec queryBuilder input).2
          = ReplAction.execFailed e)
       ∨ (∃ r, (replStep isTerm dbConnected exec queryBuilder input).2
          = ReplAction.executed r)) := by
  subst hconn hterm
  have hne : (trimStr input).data.isEmpty = false := by
    cases hd : (trimStr input).data with
    | nil => rw [lastCharIs, hd] at hsemi; simp at hsemi
    | cons a l => simp [hd]
  rw [replStep]
  simp only [hcmd, Bool.false_eq_true, if_false, Bool.not_true, Bool.false_and,
    hne, hsemi, Bool.not_false, Bool.true_and, if_true, if_false]
  cases hx : exec (trimStr (queryBuilder ++ input ++ "\n")) with
  | error e => exact ⟨rfl, Or.inl ⟨e, rfl⟩⟩
  | ok r => exact ⟨rfl, Or.inr ⟨r, rfl⟩⟩

/-- An execution outcome that always fails, for witnesses. -/
def execFailW : String → Except String ExecResult := fun _ => Except.error "boom"

/-- Witness for C3: a failing dispatch of the buffered statement resets the
buffer to empty. -/
theorem c3_witness :
    (replStep true true execFailW "SELECT" " 1;").1 = "" :=
  (c3_buffer_reset_after_dispatch true true execFailW "SELECT" " 1;"
    (by decide) rfl rfl (by decide)).1

/-- Claim C6: with piped (non-interactive) input and an active connection,
a non-command line whose trimmed text does not end with the statement
terminator is rejected: the statement buffer is discarded, the protocol
error is reported, and the loop continues with the next line rather than
terminating. -/
theorem c6_pipe_must_terminate
    (dbConnected : Bool) (exec : String → Except String ExecResult)
    (queryBuilder input : String)
    (hcmd : startsWithDot (trimStr input) = false)
    (hconn : dbConnected = true)
    (hviolate : ((trimStr input).data.isEmpty || !(lastCharIs (trimStr input) ';')) = true) :
    replStep false dbConnected exec queryBuilder input
      = ("", ReplAction.pipeProtocolError) := by
  subst hconn
  rw [replStep]
  simp [hcmd, hviolate]

/-- Witness for C6: the piped line SELECT 1 (no terminator) is rejected
with the buffer discarded. -/
theorem c6_witness :
    replStep false true execFailW "" "SELECT 1"
      = ("", ReplAction.pipeProtocolError) :=
  c6_pipe_must_terminate true execFailW "" "SELECT 1" (by decide) rfl (by decide)

/-- Claim C7: .output_format with zero arguments never changes the
selector; with one known format name it replaces the selector with that
format (so a second invocation with the same name leaves it unchanged);
with an unknown name it returns an error naming the offending token and
leaves the selector unchanged. -/
theorem c7_output_format_selector :
    (∀ current, (outputFormatHandle [] current).1 = current)
    ∧ (∀ current arg, arg ∈ ["json", "table", "plain", "csv"] →
        (outputFormatHandle [arg] current).1 = parseOutputFormat arg
        ∧ (outputFormatHandle [arg] (outputFormatHandle [arg] current).1).1
            = (outputFormatHandle [arg] current).1)
    ∧ (∀ current arg, arg ∉ ["json", "table", "plain", "csv"] →
        outputFormatHandle [arg] current
          = (current, Except.error ("invalid format: " ++ arg))) := by
  refine ⟨fun current => rfl, ?_, ?_⟩
  · intro current arg harg
    simp only [List.mem_cons, List.mem_singleton, List.not_mem_nil, or_false] at harg
    rcases harg with rfl | rfl | rfl | rfl <;> exact ⟨rfl, rfl⟩
  · intro current arg harg
    simp only [List.mem_cons, List.mem_singleton, List.not_mem_nil, or_false,
      not_or] at harg
    obtain ⟨h1, h2, h3, h4⟩ := harg
    rw [outputFormatHandle]
    simp only [List.isEmpty_cons, List.length_singleton, List.head?_cons]
    rw [if_neg (by simp)]
    rw [if_neg (by simp)]
    rw [parseOutputFormat, if_neg h1, if_neg h2, if_neg h4]
    rw [if_pos ⟨rfl, h3⟩]

/-- Witness for C7: listing leaves the selector alone; setting csv twice
is idempotent; an unknown name errors without mutation. -/
theorem c7_witness :
    (outputFormatHandle [] OutputFormat.Plain).1 = OutputFormat.Plain
    ∧ ((outputFormatHandle ["csv"] OutputFormat.Plain).1 = parseOutputFormat "csv"
       ∧ (outputFormatHandle ["csv"] (outputFormatHandle ["csv"] OutputFormat.Plain).1).1
           = (outputFormatHandle ["csv"] OutputFormat.Plain).1)
    ∧ outputFormatHandle ["yaml"] OutputFormat.Table
        = (OutputFormat.Table, Except.error ("invalid format: " ++ "yaml")) :=
  ⟨c7_output_format_selector.1 OutputFormat.Plain,
   c7_output_format_selector.2.1 OutputFormat.Plain "csv" (by decide),
   c7_output_format_selector.2.2 OutputFormat.Table "yaml" (by decide)⟩

/-- Claim C8, counterexample: a prompt cycle that consumed the pending
suggestion SELECT 1; by overwriting it with an .ask command whose answer
yielded a selected SQL block leaves the slot holding the newly selected
statement — not empty — for the next cycle. -/
theorem c8_counterexample :
    (promptCycle { replSuggestion := "SELECT 1;" } ".ask list the tables"
        (some (["SELECT 2 "], "SELECT 2 "))).replSuggestion = "SELECT 2 "
    ∧ (promptCycle { replSuggestion := "SELECT 1;" } ".ask list the tables"
        (some (["SELECT 2 "], "SELECT 2 "))).replSuggestion ≠ "" := by
  exact ⟨rfl, by decide⟩

/-- Claim C8 as amended: after a prompt cycle the consumed pending
suggestion never persists — the slot is empty for the next cycle, except
that when the entered line was a dot-command whose dispatch itself stored
a new suggestion (.ask with at least one extracted SQL statement), the
slot holds exactly that newly selected statement. -/
theorem c8_suggestion_cleared
    (g : ReplGlobals) (userInput : String)
    (askOutcome : Option (List String × String)) :
    (promptCycle g userInput askOutcome).replSuggestion = ""
    ∨ (startsWithDot (trimStr userInput) = true
       ∧ ∃ stmts sel, askOutcome = some (stmts, sel) ∧ stmts ≠ []
          ∧ (promptCycle g userInput askOutcome).replSuggestion = sel) := by
  unfold promptCycle
  by_cases hdot : startsWithDot (trimStr (promptRead g userInput).1)
  · rw [if_pos hdot]
    cases askOutcome with
    | none => exact Or.inl rfl
    | some p =>
      obtain ⟨stmts, sel⟩ := p
      cases stmts with
      | nil => exact Or.inl rfl
      | cons a l =>
        refine Or.inr ⟨hdot, a :: l, sel, rfl, by simp, ?_⟩
        rfl
  · rw [if_neg hdot]
    exact Or.inl rfl

/-- Claim C9: a failed connectToDatabase — both connection attempts fail,
or the post-connect ping fails — leaves the shared global connection
handle and the last-used-database string unchanged. -/
theorem c9_failed_connect_preserves_globals
    (env : ConnEnv) (info : ConnInfo) (st : GlobalConnState) (e : String)
    (hfail : (connectToDatabase env info st).2 = Except.error e) :
    (connectToDatabase env info st).1 = st := by
  rw [connectToDatabase] at hfail ⊢
  cases h1 : env.tlsAttempt with
  | ok db =>
    rw [h1] at hfail
    by_cases hp : env.pingOK db
    · simp [hp] at hfail
    · simp [hp]
  | error e1 =>
    rw [h1] at hfail
    cases h2 : env.plainAttempt with
    | error e2 => rfl
    | ok db =>
      rw [h2] at hfail
      by_cases hp : env.pingOK db
      · simp [hp] at hfail
      · simp [hp]

/-- A network environment where both connection attempts fail. -/
def envFailW : ConnEnv :=
  { tlsAttempt := Except.error "tls handshake failed",
    plainAttempt := Except.error "connection refused",
    pingOK := fun _ => true }

/-- A pre-existing global state with a live handle and a remembered
database. -/
def stW : GlobalConnState := { globalDB := some 7, lastUsedDB := "mydb" }

/-- Concrete connection parameters for the C9 witness. -/
def infoW : ConnInfo :=
  { host := "h", port := "4000", user := "root", password := "p", database := "" }

/-- Witness for C9: a doubly failed connect leaves the working handle and
last-used database exactly as they were. -/
theorem c9_witness : (connectToDatabase envFailW infoW stW).1 = stW :=
  c9_failed_connect_preserves_globals envFailW infoW stW
    "failed to connect to TiDB: connection refused" rfl

/-- Claim C10: every successful sql.query result is internally consistent:
row_count equals the number of row tables in data, and every row table in
data has exactly as many entries as the columns table has names. -/
theorem c10_query_result_consistent
    (conn : Option DB) (query : String) (res : SQLQueryResult)
    (hres : sqlQueryLua conn query = Except.ok res)
    (hok : res.ok = true) :
    ∃ cols rows, res.columns = some cols ∧ res.data = some rows
      ∧ res.rowCount = some (rows.length : Int)
      ∧ ∀ row ∈ rows, row.length = cols.length := by
  cases conn with
  | none =>
    simp only [sqlQueryLua, Except.ok.injEq] at hres
    rw [← hres] at hok
    simp [sqlQueryFailure] at hok
  | some db =>
    cases hq : db.queryFn query with
    | error e =>
      simp only [sqlQueryLua, hq, Except.ok.injEq] at hres
      rw [← hres] at hok
      simp [sqlQueryFailure] at hok
    | ok p =>
      obtain ⟨cols, recs⟩ := p
      cases hsc : scanConvertAll cols.length recs with
      | error e =>
        simp only [sqlQueryLua, hq, hsc, Except.ok.injEq] at hres
        rw [← hres] at hok
        simp [sqlQueryFailure] at hok
      | ok rows =>
        simp only [sqlQueryLua, hq, hsc, Except.ok.injEq] at hres
        rw [← hres]
        exact ⟨cols, rows, rfl, rfl, rfl,
          scanConvertAll_lengths cols.length recs rows hsc⟩

/-- A concrete database handle for the C10 witness: one query returning
two columns and one row. -/
def dbC10 : DB :=
  { queryFn := fun _ => Except.ok (["a", "b"], [[Value.intV 1, Value.strV "x"]]),
    execFn := fun _ => Except.ok 0 }

/-- The result sql.query builds from dbC10's single row. -/
def resC10 : SQLQueryResult :=
  { ok := true, err := "",
    columns := some ["a", "b"],
    data := some [[LuaValue.LNumberInt 1, LuaValue.LString "x"]],
    rowCount := some 1 }

/-- Witness for C10 at a concrete one-row query result. -/
theorem c10_witness :
    ∃ cols rows, resC10.columns = some cols ∧ resC10.data = some rows
      ∧ resC10.rowCount = some (rows.length : Int)
      ∧ ∀ row ∈ rows, row.length = cols.length :=
  c10_query_result_consistent (some dbC10) "SELECT a, b FROM t" resC10 rfl rfl

end Tip
